import Mathlib

/-!
Verification development for the SelFi holdings-import pipeline.

The definitions below are a shallow embedding of the ingestion and
reconciliation core of the repository:

* `backend/app/services/csv_parser.py` — symbol cleaning and asset-type
  classification, the generic CSV row parser, the Excel stock-sheet row
  parser and the Excel mutual-fund invested-value interpretation;
* `backend/app/services/pdf_parser.py` — the mutual-fund windowed
  extraction;
* `backend/app/api/v1/endpoints/uploads.py` — the per-holding
  reconciliation loops of the four upload endpoints, the persistence
  transaction and the price-enrichment pass.

Python floats are modelled by `ℚ`; machine strings by `String` with a
small character-list utility layer (so every definition evaluates by
kernel reduction); nullable values by `Option`; exceptions by `Except`
or explicit outcome types.
-/

set_option maxRecDepth 2048

namespace SelFi

/-! ### String utilities (executable stand-ins for Python str operations) -/

/-- Boolean list-prefix test on characters. -/
def charsPrefixB : List Char → List Char → Bool
  | [], _ => true
  | _ :: _, [] => false
  | a :: as, b :: bs => a == b && charsPrefixB as bs

/-- Boolean list-infix test on characters (Python `in` on strings). -/
def charsInfixB (pat : List Char) : List Char → Bool
  | [] => charsPrefixB pat []
  | s@(_ :: rest) => charsPrefixB pat s || charsInfixB pat rest

/-- Python `pat in s` for strings. -/
def strContains (s pat : String) : Bool := charsInfixB pat.data s.data

/-- Python `s.startswith(pat)`. -/
def strStarts (s pat : String) : Bool := charsPrefixB pat.data s.data

/-- Python `s.endswith(pat)`. -/
def strEnds (s pat : String) : Bool := charsPrefixB pat.data.reverse s.data.reverse

/-- Python `s.upper()`. -/
def strUpper (s : String) : String := String.mk (s.data.map Char.toUpper)

/-- Python `len(s)`. -/
def strLen (s : String) : ℕ := s.data.length

/-- First `n` characters of `s` (Python `s[:n]`). -/
def strTake (s : String) (n : ℕ) : String := String.mk (s.data.take n)

/-- All but the first `n` characters of `s` (Python `s[n:]`). -/
def strDrop (s : String) (n : ℕ) : String := String.mk (s.data.drop n)

/-- Remove the last `n` characters of `s`. -/
def strDropRight (s : String) (n : ℕ) : String :=
  String.mk (s.data.take (s.data.length - n))

/-- Whitespace recognised by the model of Python `str.strip()`. -/
def isSpaceChar (c : Char) : Bool := c == ' ' || c == '\t' || c == '\n' || c == '\r'

/-- Python `s.strip()`. -/
def strTrim (s : String) : String :=
  String.mk (((s.data.dropWhile isSpaceChar).reverse.dropWhile isSpaceChar).reverse)

/-! ### Symbol cleaning and asset-type classification
    (`backend/app/services/csv_parser.py`) -/

/-- `re.sub(r'\.(NS|BO|NSE|BSE)$', '', symbol, flags=re.IGNORECASE)` —
strip a trailing exchange suffix (csv_parser.py line 355 / 704). -/
def stripExchangeSuffix (s : String) : String :=
  let u := strUpper s
  if strEnds u ".NSE" then strDropRight s 4
  else if strEnds u ".BSE" then strDropRight s 4
  else if strEnds u ".NS" then strDropRight s 3
  else if strEnds u ".BO" then strDropRight s 3
  else s

/-- `symbol.replace(' ', '').replace('&', '').replace('.', '')`
(csv_parser.py line 357 / 705). -/
def removeSpecialChars (s : String) : String :=
  String.mk (s.data.filter fun c => !(c == ' ' || c == '&' || c == '.'))

/-- The `symbol_mappings` company-name→ticker table of
`GenericCSVParser.parse_custom_holdings` (csv_parser.py lines 360-376). -/
def symbolMappings : List (String × String) :=
  [("ColgatePalmolive", "COLPAL"), ("HDFCBank", "HDFCBANK"),
   ("LarsenToubro", "LT"), ("Pidilite", "PIDILITIND"),
   ("HCLTechnologies", "HCLTECH"), ("APLApolloTubes", "APLAPOLLO"),
   ("AsianPaints", "ASIANPAINT"), ("CochinShipyard", "COCHINSHIP"),
   ("CEInfosystem", "MAPMYINDIA"), ("SupremeIndustries", "SUPREMEIND"),
   ("AshokLeyland", "ASHOKLEY"), ("JioFinancialServices", "JIOFIN"),
   ("IDFCFirstBank", "IDFCFIRSTB"), ("DeltaCorp", "DELTACORP"),
   ("Infosys", "INFY")]

/-- `if symbol in symbol_mappings: symbol = symbol_mappings[symbol]`. -/
def applySymbolMappings (s : String) : String :=
  match symbolMappings.find? (fun p => p.1 == s) with
  | some p => p.2
  | none => s

/-- `ZerodhaCSVParser.ETF_SYMBOL_MAPPINGS` (csv_parser.py lines 12-29). -/
def etfSymbolMappings : List (String × String) :=
  [("MAFSETFINAV", "MAFSETF"), ("MOM100INAV", "MOM100"),
   ("SETFNIF50", "SETFNN50"), ("NIFTYBEES", "NIFTYBEES"),
   ("BANKBEES", "BANKBEES"), ("GOLDBEES", "GOLDBEES"),
   ("JUNIORBEES", "JUNIORBEES"), ("LIQUIDBEES", "LIQUIDBEES"),
   ("NIFTYIWIN", "NIFTYIWIN"), ("ICICIB22", "ICICIB22"),
   ("SETFNIFBK", "SETFNIFBK"), ("LIQUIDBEESINAV", "LIQUIDBEES"),
   ("GOLDBEESINAV", "GOLDBEES"), ("NIFTYBEESINAV", "NIFTYBEES"),
   ("BANKBEESINAV", "BANKBEES"), ("JUNIORBEESINAV", "JUNIORBEES")]

/-- `if symbol in ETF_SYMBOL_MAPPINGS: symbol = ETF_SYMBOL_MAPPINGS[symbol]`. -/
def applyEtfMappings (s : String) : String :=
  match etfSymbolMappings.find? (fun p => p.1 == s) with
  | some p => p.2
  | none => s

/-- The `etf_keywords` list of the Zerodha parser
(csv_parser.py lines 127-130 / 184-187). -/
def etfKeywords : List String :=
  ["ETF", "NIFTY", "SENSEX", "GOLD", "SILVER", "LIQUID", "GILT",
   "CPSE", "PSU", "BANK", "IT", "PHARMA", "AUTO", "FMCG", "NEXT50",
   "MIDCAP", "SMALLCAP", "DIVIDEND", "VALUE", "MOMENTUM", "QUALITY",
   "LOWVOL", "ALPHA", "BHARAT", "MAFANG", "NASDAQ", "HANG"]

/-- The `known_etfs` allowlist (csv_parser.py lines 133-134 / 190-191). -/
def knownEtfs : List String :=
  ["MAFSETFINAV", "NIFTYBEES", "BANKBEES", "GOLDBEES", "JUNIORBEES",
   "SETFNIF50", "SETFNIFTY", "SETFNN50"]

/-- Zerodha symbol-based ETF test (csv_parser.py lines 136-138):
`(any(keyword in symbol.upper() for keyword in etf_keywords) and 'ETF' in
symbol.upper()) or symbol.upper() in known_etfs or
symbol.upper().endswith('BEES')`.  `u` is the already-uppercased symbol. -/
def zerodhaEtfSymCond (u : String) : Bool :=
  (etfKeywords.any (fun k => strContains u k) && strContains u "ETF") ||
    knownEtfs.contains u || strEnds u "BEES"

/-- Zerodha ISIN-based ETF test (csv_parser.py lines 119-124): the ISIN is
present and non-empty, starts with INF, has 12 characters and its
characters 9-10 (0-based) are one of the ETF-series codes. -/
def isinEtfCond (isin : Option String) : Bool :=
  match isin with
  | none => false
  | some s =>
      !(s == "") && strStarts s "INF" && strLen s == 12 &&
        (["01", "H1", "K1", "L1", "M1", "N1", "P1", "Q1", "R1", "S1",
          "T1"].contains (strTake (strDrop s 9) 2))

/-- Zerodha SGB test (csv_parser.py line 142):
`'SGB' in symbol.upper() or symbol.upper().startswith('SGB')`. -/
def zerodhaSgbCond (u : String) : Bool :=
  strContains u "SGB" || strStarts u "SGB"

/-- Zerodha REIT test (csv_parser.py line 146): `'REIT' in symbol.upper()
or symbol.upper().endswith('-RR') or symbol.upper().endswith('-RT')`. -/
def zerodhaReitCond (u : String) : Bool :=
  strContains u "REIT" || strEnds u "-RR" || strEnds u "-RT"

/-- Asset-type classification of `ZerodhaCSVParser.parse_holdings_csv`
(csv_parser.py lines 111-147): a sequence of reassignments of
`asset_type`, so a later matching test overrides an earlier one.  The
old ("Instrument") format runs the same code with no ISIN. -/
def zerodhaClassify (symbol : String) (isin : Option String) : String :=
  let u := strUpper symbol
  let a0 := "stock"
  let a1 := if isinEtfCond isin then "etf" else a0
  let a2 := if zerodhaEtfSymCond u then "etf" else a1
  let a3 := if zerodhaSgbCond u then "sgb" else a2
  if zerodhaReitCond u then "reit" else a3

/-- Asset-type classification of `GenericCSVParser.parse_custom_holdings`
(csv_parser.py lines 424-432): an `if/elif/elif` chain testing ETF
first, then SGB (requiring both GOLD and SGB), then REIT. -/
def genericClassify (symbol : String) : String :=
  let u := strUpper symbol
  if strContains u "ETF" || strEnds u "BEES" || strEnds u "NAV" then "etf"
  else if strContains u "GOLD" && strContains u "SGB" then "sgb"
  else if strContains u "REIT" || strEnds u "-RR" || strEnds u "-RT" then "reit"
  else "stock"

/-! ### Data model -/

/-- A parsed holding as produced by the parsers: the dictionary built in
csv_parser.py lines 153-164 / 439-450 / 742-753 / 866-878 and
pdf_parser.py lines 83-93.  `asset_type` keeps the parser-level strings
("stock", "etf", "sgb", "reit", "mutual_fund").  Absent dictionary keys
and Python `None` are both `none`. -/
structure ParsedHolding where
  symbol : String
  exchange : String
  assetType : String
  quantity : ℚ
  averagePrice : ℚ
  currentPrice : ℚ
  currentValue : ℚ
  pnl : ℚ
  pnlPercentage : ℚ
  isin : Option String
  schemeCode : Option String
deriving DecidableEq

/-- A per-row import warning (csv_parser.py lines 456-460 / 763-768). -/
structure ImportWarning where
  symbol : String
  missingFields : List String
  rowNumber : ℕ
deriving DecidableEq

/-- One logical cell of a mapped row: `absent` models a column that was
not mapped or is missing from the row, `invalid` a value whose
`float(...)` conversion raises, `num q` a successfully parsed number
(commas already stripped). -/
inductive Cell
  | absent
  | invalid
  | num (q : ℚ)
deriving DecidableEq

/-- The invariant stated by the spec for parsed holdings: `current_value =
quantity*current_price` when `current_price > 0`, else
`quantity*average_price`. -/
def cvInvariant (h : ParsedHolding) : Prop :=
  (0 < h.currentPrice → h.currentValue = h.quantity * h.currentPrice) ∧
    (¬ 0 < h.currentPrice → h.currentValue = h.quantity * h.averagePrice)

instance (h : ParsedHolding) : Decidable (cvInvariant h) := by
  unfold cvInvariant; infer_instance

/-! ### Generic CSV row parsing
    (`GenericCSVParser.parse_custom_holdings`, csv_parser.py lines 346-460) -/

/-- One row of a generic CSV after column mapping: the value under the
mapped symbol column (`none` when `pd.isna`), and the three numeric
cells.  A column that is absent for one row is absent for every row of
the file, since the mapping is computed once per file. -/
structure GenRow where
  symbol : Option String
  quantity : Cell
  avgPrice : Cell
  currentPrice : Cell
deriving DecidableEq

/-- The per-row body of `GenericCSVParser.parse_custom_holdings`
(csv_parser.py lines 346-460): skip on missing symbol, clean and remap
the symbol, default `quantity` to 1.0 and prices to 0.0 when a cell
cannot be resolved (recording a missing-field name for quantity/average
price only), classify, derive `current_value`, `pnl`,
`pnl_percentage`, and attach a warning when any field name was
recorded.  `idx` is the 0-based pandas row index (`row_number = idx+2`). -/
def parseGenericRow (idx : ℕ) (row : GenRow) : Option (ParsedHolding × Option ImportWarning) :=
  match row.symbol with
  | none => none
  | some raw =>
    let original := strTrim raw
    let s1 := stripExchangeSuffix original
    let s2 := removeSpecialChars s1
    let s3 := applySymbolMappings s2
    let (quantity, mf1) : ℚ × List String :=
      match row.quantity with
      | .num q => (q, [])
      | .invalid => (1, [])
      | .absent => (1, ["quantity"])
    let (avgPrice, mf2) : ℚ × List String :=
      match row.avgPrice with
      | .num q => (q, [])
      | .invalid => (0, ["average_price (invalid value)"])
      | .absent => (0, ["average_price"])
    let currentPrice : ℚ :=
      match row.currentPrice with
      | .num q => q
      | _ => 0
    let s4 := applyEtfMappings s3
    let assetType := genericClassify s4
    let currentValue := if 0 < currentPrice then quantity * currentPrice else quantity * avgPrice
    let pnl := if 0 < avgPrice then currentValue - quantity * avgPrice else 0
    let pnlPercentage :=
      if 0 < avgPrice ∧ 0 < quantity then pnl / (quantity * avgPrice) * 100 else 0
    let missing := mf1 ++ mf2
    some ({ symbol := s4, exchange := "NSE", assetType := assetType,
            quantity := quantity, averagePrice := avgPrice,
            currentPrice := currentPrice, currentValue := currentValue,
            pnl := pnl, pnlPercentage := pnlPercentage,
            isin := none, schemeCode := none },
          if missing = [] then none else some ⟨original, missing, idx + 2⟩)

/-- The row loop of `parse_custom_holdings`, accumulating holdings and
warnings in file order starting at pandas index `i`. -/
def parseGenericRowsFrom : ℕ → List GenRow → List ParsedHolding × List ImportWarning
  | _, [] => ([], [])
  | i, r :: rs =>
    let rest := parseGenericRowsFrom (i + 1) rs
    match parseGenericRow i r with
    | none => rest
    | some (h, none) => (h :: rest.1, rest.2)
    | some (h, some w) => (h :: rest.1, w :: rest.2)

/-- `parse_custom_holdings` over all data rows of the file. -/
def parseGenericRows (rows : List GenRow) : List ParsedHolding × List ImportWarning :=
  parseGenericRowsFrom 0 rows

/-! ### Zerodha Console ("new format") row parsing
    (`ZerodhaCSVParser.parse_holdings_csv`, csv_parser.py lines 97-165) -/

/-- One row of the new Zerodha Console format.  The numeric columns are
converted with a bare `float(...)` (a failure aborts the whole file),
so they are plain rationals here.  `symbol = none` models `pd.isna`. -/
structure ZerodhaNewRow where
  symbol : Option String
  quantityAvailable : ℚ
  averagePrice : ℚ
  previousClosingPrice : ℚ
  unrealizedPnl : ℚ
  unrealizedPnlPct : ℚ
  isin : Option String
deriving DecidableEq

/-- The per-row body of the new-format branch of
`ZerodhaCSVParser.parse_holdings_csv` (csv_parser.py lines 99-165):
skip blank symbols, classify (ISIN pattern then symbol patterns, with
SGB and REIT overriding), remap known ETF symbols, and emit the
holding with `current_value = quantity * current_price` taken from
line 159 and `pnl`/`pnl_percentage` read from the file. -/
def parseZerodhaNewRow (row : ZerodhaNewRow) : Option ParsedHolding :=
  match row.symbol with
  | none => none
  | some raw =>
    if strTrim raw = "" then none
    else
      let symbol := strTrim raw
      let assetType := zerodhaClassify symbol row.isin
      let symbol1 := applyEtfMappings symbol
      some { symbol := symbol1, exchange := "NSE", assetType := assetType,
             quantity := row.quantityAvailable,
             averagePrice := row.averagePrice,
             currentPrice := row.previousClosingPrice,
             currentValue := row.quantityAvailable * row.previousClosingPrice,
             pnl := row.unrealizedPnl,
             pnlPercentage := row.unrealizedPnlPct,
             isin := row.isin, schemeCode := none }

/-! ### Excel stock-sheet row parsing
    (`ExcelParser._parse_stock_sheet`, csv_parser.py lines 686-770) -/

/-- A warning of the Excel parsers additionally carries the sheet name
(csv_parser.py lines 763-768). -/
structure SheetWarning where
  symbol : String
  missingFields : List String
  rowNumber : ℕ
  sheet : String
deriving DecidableEq

/-- The per-row body of `ExcelParser._parse_stock_sheet` (csv_parser.py
lines 695-768): same column mapping and symbol cleaning as the generic
CSV path but no symbol remap tables, `asset_type` fixed to "stock",
`pnl` computed only when both prices are positive, and an invalid
quantity cell recorded as a missing field (unlike the generic path). -/
def parseExcelStockRow (idx : ℕ) (sheet : String) (row : GenRow) :
    Option (ParsedHolding × Option SheetWarning) :=
  match row.symbol with
  | none => none
  | some raw =>
    let original := strTrim raw
    let s1 := stripExchangeSuffix original
    let s2 := removeSpecialChars s1
    let (quantity, mf1) : ℚ × List String :=
      match row.quantity with
      | .num q => (q, [])
      | .invalid => (1, ["quantity (invalid value)"])
      | .absent => (1, ["quantity"])
    let (avgPrice, mf2) : ℚ × List String :=
      match row.avgPrice with
      | .num q => (q, [])
      | .invalid => (0, ["average_price (invalid value)"])
      | .absent => (0, ["average_price"])
    let currentPrice : ℚ :=
      match row.currentPrice with
      | .num q => q
      | _ => 0
    let currentValue := if 0 < currentPrice then quantity * currentPrice else quantity * avgPrice
    let pnl := if 0 < avgPrice ∧ 0 < currentPrice then (currentPrice - avgPrice) * quantity else 0
    let pnlPercentage :=
      if 0 < avgPrice ∧ 0 < currentPrice then (currentPrice - avgPrice) / avgPrice * 100 else 0
    let missing := mf1 ++ mf2
    some ({ symbol := s2, exchange := "NSE", assetType := "stock",
            quantity := quantity, averagePrice := avgPrice,
            currentPrice := currentPrice, currentValue := currentValue,
            pnl := pnl, pnlPercentage := pnlPercentage,
            isin := none, schemeCode := none },
          if missing = [] then none else some ⟨original, missing, idx + 2, sheet⟩)

/-! ### Excel mutual-fund invested-value interpretation
    (`ExcelParser._parse_mutual_fund_sheet`, csv_parser.py lines 836-848) -/

/-- The numeric branch of the "invested value or average price" handling
(csv_parser.py lines 838-845), given the parsed column `value`, the
the `units` and `nav` of the row.  Returns `(invested_value, avg_price)`:
`value < 1000` is treated as a per-unit average price, otherwise as a
total invested value with `avg_price` falling back to the NAV when
`units` is not positive. -/
def mfInvestedInterp (value units nav : ℚ) : ℚ × ℚ :=
  if value < 1000 then (if 0 < units then value * units else 0, value)
  else (value, if 0 < units then value / units else nav)

/-! ### PDF mutual-fund windowed extraction
    (`PDFParser._parse_mutual_fund_statement`, pdf_parser.py lines 64-142) -/

/-- The outcome of the units/NAV regex search in the 500-character window
after a scheme-name candidate: cells are `absent` when the regex has no
match, `invalid` when `float(...)` on the match raises, `num` on
success. -/
structure PdfWindow where
  units : Cell
  nav : Cell
deriving DecidableEq

/-- The per-candidate body of `_parse_mutual_fund_statement`
(pdf_parser.py lines 82-135): quantity from the units pattern (left at
zero on failure), `current_price` and `average_price` both set to the
NAV when it parses, `current_value = quantity * current_price` only
when both are positive, `pnl` and `pnl_percentage` never touched, and
the candidate discarded unless its quantity is positive. -/
def pdfMFSchemeHolding (scheme : String) (w : PdfWindow) : Option ParsedHolding :=
  let quantity : ℚ :=
    match w.units with
    | .num u => u
    | _ => 0
  let navPair : ℚ × ℚ :=
    match w.nav with
    | .num n => (n, n)
    | _ => (0, 0)
  let currentValue := if 0 < quantity ∧ 0 < navPair.1 then quantity * navPair.1 else 0
  if 0 < quantity then
    some { symbol := strTake (strTrim scheme) 50, exchange := "MF",
           assetType := "mutual_fund", quantity := quantity,
           averagePrice := navPair.2, currentPrice := navPair.1,
           currentValue := currentValue, pnl := 0, pnlPercentage := 0,
           isin := none, schemeCode := none }
  else none

/-! ### Reconciliation (`backend/app/api/v1/endpoints/uploads.py`)

The four upload endpoints contain near-duplicate per-holding loops.
Each is modelled as a fold of a step function over the parsed holdings;
`reconStepWith` is the shared skeleton of the generic-CSV, Excel and
PDF loops (which differ only in their asset-type map and in which
optional identifier fields an insert or update carries), and
`zerodhaStep` is the distinct Zerodha loop (uploads.py lines 82-139),
which has no skip branch and increments `imported_count` for every
parsed holding. -/

/-- `models.AssetType` (the enum stored on persisted holdings). -/
inductive AssetType
  | stock
  | etf
  | mutual_fund
  | sgb
  | reit
deriving DecidableEq

/-- The `asset_type_map` of the Zerodha, generic-CSV and PDF endpoints
(uploads.py lines 85-92 / 310-317 / 711-718), applied to the upper-cased
parsed asset-type string; unknown strings default to STOCK. -/
def assetTypeMapFull (s : String) : AssetType :=
  if s = "STOCK" then .stock
  else if s = "ETF" then .etf
  else if s = "MUTUAL_FUND" then .mutual_fund
  else if s = "SGB" then .sgb
  else if s = "REIT" then .reit
  else .stock

/-- The `asset_type_map` of the Excel endpoint (uploads.py lines 501-507),
which lacks a REIT entry. -/
def assetTypeMapExcel (s : String) : AssetType :=
  if s = "STOCK" then .stock
  else if s = "ETF" then .etf
  else if s = "MUTUAL_FUND" then .mutual_fund
  else if s = "SGB" then .sgb
  else .stock

/-- A persisted `models.Holding` row, restricted to the fields the upload
endpoints read or write. -/
structure DBHolding where
  platformAccountId : ℕ
  symbol : String
  exchange : String
  assetType : AssetType
  quantity : ℚ
  averagePrice : ℚ
  currentPrice : ℚ
  currentValue : ℚ
  pnl : ℚ
  pnlPercentage : ℚ
  isin : Option String
  schemeCode : Option String
deriving DecidableEq

/-- The reconciliation-key filter of the existing-holding query
(uploads.py lines 95-99 / 320-324 / 510-514 / 721-725):
`platform_account_id`, `symbol` and `asset_type` all equal. -/
def keyMatch (acct : ℕ) (sym : String) (a : AssetType) (r : DBHolding) : Bool :=
  decide (r.platformAccountId = acct ∧ r.symbol = sym ∧ r.assetType = a)

/-- In-place mutation of the first record matched by `p` (the session
object returned by `.first()` is one of the stored rows, so updating it
updates the first match in the store). -/
def updateFirst {α : Type} (p : α → Bool) (f : α → α) : List α → List α
  | [] => []
  | r :: rs => if p r then f r :: rs else r :: updateFirst p f rs

/-- Counters and store state threaded through one reconciliation loop. -/
structure RState where
  db : List DBHolding
  imported : ℕ
  updated : ℕ
  skipped : ℕ
deriving DecidableEq

/-- Field overwrite of the generic-CSV update branch (uploads.py lines
334-341): the six value fields only. -/
def genericUpd (h : ParsedHolding) (r : DBHolding) : DBHolding :=
  { r with quantity := h.quantity, averagePrice := h.averagePrice,
           currentPrice := h.currentPrice, currentValue := h.currentValue,
           pnl := h.pnl, pnlPercentage := h.pnlPercentage }

/-- Python truthiness used for the conditional `isin`/`scheme_code`
overwrite: a present, non-empty string. -/
def truthy (s : Option String) : Bool :=
  match s with
  | none => false
  | some v => !(v == "")

/-- Field overwrite of the Excel update branch (uploads.py lines 522-530):
the six value fields plus `scheme_code` when truthy. -/
def excelUpd (h : ParsedHolding) (r : DBHolding) : DBHolding :=
  { r with quantity := h.quantity, averagePrice := h.averagePrice,
           currentPrice := h.currentPrice, currentValue := h.currentValue,
           pnl := h.pnl, pnlPercentage := h.pnlPercentage,
           schemeCode := if truthy h.schemeCode then h.schemeCode else r.schemeCode }

/-- Field overwrite of the PDF update branch (uploads.py lines 734-742):
the six value fields plus `isin` when truthy. -/
def pdfUpd (h : ParsedHolding) (r : DBHolding) : DBHolding :=
  { r with quantity := h.quantity, averagePrice := h.averagePrice,
           currentPrice := h.currentPrice, currentValue := h.currentValue,
           pnl := h.pnl, pnlPercentage := h.pnlPercentage,
           isin := if truthy h.isin then h.isin else r.isin }

/-- Field overwrite of the Zerodha update branch (uploads.py lines
111-119): the six value fields plus `isin` when truthy. -/
def zerodhaUpd (h : ParsedHolding) (r : DBHolding) : DBHolding :=
  { r with quantity := h.quantity, averagePrice := h.averagePrice,
           currentPrice := h.currentPrice, currentValue := h.currentValue,
           pnl := h.pnl, pnlPercentage := h.pnlPercentage,
           isin := if truthy h.isin then h.isin else r.isin }

/-- New record built by the generic-CSV insert branch (uploads.py lines
345-358); `scheme_code` is not set. -/
def genericNew (acct : ℕ) (a : AssetType) (h : ParsedHolding) : DBHolding :=
  { platformAccountId := acct, symbol := h.symbol, exchange := h.exchange,
    assetType := a, quantity := h.quantity, averagePrice := h.averagePrice,
    currentPrice := h.currentPrice, currentValue := h.currentValue,
    pnl := h.pnl, pnlPercentage := h.pnlPercentage,
    isin := h.isin, schemeCode := none }

/-- New record built by the Excel insert branch (uploads.py lines
534-548), which also carries `scheme_code`. -/
def excelNew (acct : ℕ) (a : AssetType) (h : ParsedHolding) : DBHolding :=
  { platformAccountId := acct, symbol := h.symbol, exchange := h.exchange,
    assetType := a, quantity := h.quantity, averagePrice := h.averagePrice,
    currentPrice := h.currentPrice, currentValue := h.currentValue,
    pnl := h.pnl, pnlPercentage := h.pnlPercentage,
    isin := h.isin, schemeCode := h.schemeCode }

/-- New record built by the PDF insert branch (uploads.py lines 747-760). -/
def pdfNew (acct : ℕ) (a : AssetType) (h : ParsedHolding) : DBHolding :=
  { platformAccountId := acct, symbol := h.symbol, exchange := h.exchange,
    assetType := a, quantity := h.quantity, averagePrice := h.averagePrice,
    currentPrice := h.currentPrice, currentValue := h.currentValue,
    pnl := h.pnl, pnlPercentage := h.pnlPercentage,
    isin := h.isin, schemeCode := none }

/-- New record built by the Zerodha insert branch (uploads.py lines
124-137). -/
def zerodhaNew (acct : ℕ) (a : AssetType) (h : ParsedHolding) : DBHolding :=
  { platformAccountId := acct, symbol := h.symbol, exchange := h.exchange,
    assetType := a, quantity := h.quantity, averagePrice := h.averagePrice,
    currentPrice := h.currentPrice, currentValue := h.currentValue,
    pnl := h.pnl, pnlPercentage := h.pnlPercentage,
    isin := h.isin, schemeCode := none }

/-- Shared per-holding skeleton of the generic-CSV (uploads.py lines
307-360), Excel (lines 498-549) and PDF (lines 708-762) loops: look up
the first existing holding with the same reconciliation key; insert
when none, skip when `(quantity, average_price)` are exactly equal,
overwrite otherwise.  Pending inserts and updates are visible to later
lookups of the same loop (SQLAlchemy autoflush). -/
def reconStepWith (amap : String → AssetType)
    (mkNew : ℕ → AssetType → ParsedHolding → DBHolding)
    (upd : ParsedHolding → DBHolding → DBHolding)
    (acct : ℕ) (st : RState) (h : ParsedHolding) : RState :=
  let a := amap (strUpper h.assetType)
  match st.db.find? (keyMatch acct h.symbol a) with
  | none =>
      { st with db := st.db ++ [mkNew acct a h], imported := st.imported + 1 }
  | some e =>
      if e.quantity = h.quantity ∧ e.averagePrice = h.averagePrice then
        { st with skipped := st.skipped + 1 }
      else
        { st with db := updateFirst (keyMatch acct h.symbol a) (upd h) st.db,
                  updated := st.updated + 1 }

/-- The generic-CSV loop of `upload_generic_holdings`. -/
def genericStep : ℕ → RState → ParsedHolding → RState :=
  reconStepWith assetTypeMapFull genericNew genericUpd

/-- The Excel loop of `upload_excel_holdings`. -/
def excelStep : ℕ → RState → ParsedHolding → RState :=
  reconStepWith assetTypeMapExcel excelNew excelUpd

/-- The PDF loop of `upload_pdf_holdings`. -/
def pdfStep : ℕ → RState → ParsedHolding → RState :=
  reconStepWith assetTypeMapFull pdfNew pdfUpd

/-- The per-holding loop of `upload_zerodha_holdings` (uploads.py lines
82-139): an existing key match is always overwritten (`updated_count`
incremented, never skipped), and `imported_count` is incremented for
every parsed holding — line 139 sits at loop level, outside the
if/else. -/
def zerodhaStep (acct : ℕ) (st : RState) (h : ParsedHolding) : RState :=
  let a := assetTypeMapFull (strUpper h.assetType)
  match st.db.find? (keyMatch acct h.symbol a) with
  | none =>
      { st with db := st.db ++ [zerodhaNew acct a h],
                imported := st.imported + 1 }
  | some _ =>
      { st with db := updateFirst (keyMatch acct h.symbol a) (zerodhaUpd h) st.db,
                updated := st.updated + 1, imported := st.imported + 1 }

/-- One reconciliation call: fold the loop over the parsed holdings with
fresh counters against the given store contents. -/
def runRecon (step : ℕ → RState → ParsedHolding → RState) (acct : ℕ)
    (hs : List ParsedHolding) (db : List DBHolding) : RState :=
  hs.foldl (step acct) ⟨db, 0, 0, 0⟩

/-- `upload_generic_holdings` reconciliation. -/
def genericReconcile (acct : ℕ) (hs : List ParsedHolding) (db : List DBHolding) : RState :=
  runRecon genericStep acct hs db

/-- `upload_excel_holdings` reconciliation (holdings of one sheet). -/
def excelReconcile (acct : ℕ) (hs : List ParsedHolding) (db : List DBHolding) : RState :=
  runRecon excelStep acct hs db

/-- `upload_pdf_holdings` reconciliation. -/
def pdfReconcile (acct : ℕ) (hs : List ParsedHolding) (db : List DBHolding) : RState :=
  runRecon pdfStep acct hs db

/-- `upload_zerodha_holdings` reconciliation. -/
def zerodhaReconcile (acct : ℕ) (hs : List ParsedHolding) (db : List DBHolding) : RState :=
  runRecon zerodhaStep acct hs db

/-- The reconciliation key of a parsed holding as seen by a loop using
asset-type map `amap` (the platform account is fixed per call). -/
def keyOf (amap : String → AssetType) (h : ParsedHolding) : String × AssetType :=
  (h.symbol, amap (strUpper h.assetType))

/-! ### Persistence transaction (uploads.py, the try/except around each
reconciliation loop, e.g. lines 305-362 and 425-431) -/

/-- The import-history record (`models.ImportHistory`), restricted to the
fields the handlers write. -/
structure ImportRec where
  status : String
  errorMessage : Option String
deriving DecidableEq

/-- The SQLAlchemy session as seen by the handlers: the committed store
contents and the working view of the session.  `db.commit()` publishes the
view; `db.rollback()` restores the view from the committed state.  The
handler enters the persistence phase with `view = committed`, the
record of the import having been committed just before. -/
structure Session where
  committed : List DBHolding
  view : List DBHolding
deriving DecidableEq

/-- The reconciliation loop with an exception oracle: `failAt = some k`
raises at the `k`-th parsed holding (any exception inside the loop
body), before the branch for that holding takes effect.  No `db.commit()`
occurs inside the loop. -/
def runBatchFrom (step : ℕ → RState → ParsedHolding → RState) (acct : ℕ)
    (failAt : Option ℕ) : List ParsedHolding → ℕ → RState → Except String RState
  | [], _, st => .ok st
  | h :: hs, i, st =>
    if failAt = some i then .error "exception while processing holding"
    else runBatchFrom step acct failAt hs (i + 1) (step acct st h)

/-- Result of the persistence phase: the session, the import record, and
the loop counters when the phase succeeded. -/
structure PersistOutcome where
  session : Session
  record : ImportRec
  counts : Option RState
deriving DecidableEq

/-- The persistence phase of an upload handler (uploads.py lines 305-362
with the except branch at 425-431, and likewise for the other three
endpoints): run the loop on the session view; on success `db.commit()`
publishes the batch; on any exception `db.rollback()` discards every
pending write and the import record is marked failed with the captured
error text (then committed on its own). -/
def persistPhase (step : ℕ → RState → ParsedHolding → RState) (acct : ℕ)
    (hs : List ParsedHolding) (failAt : Option ℕ) (s : Session)
    (rec : ImportRec) : PersistOutcome :=
  match runBatchFrom step acct failAt hs 0 ⟨s.view, 0, 0, 0⟩ with
  | .ok st => { session := ⟨st.db, st.db⟩, record := rec, counts := some st }
  | .error e =>
      { session := ⟨s.committed, s.committed⟩,
        record := { status := "failed", errorMessage := some e },
        counts := none }

/-! ### Price enrichment (uploads.py lines 143-188, 364-397, 565-608,
766-813) -/

/-- Outcome of one price-lookup call: a returned price/NAV, a `None` (or
falsy) response, or a raised exception. -/
inductive Lookup
  | price (p : ℚ)
  | noData
  | failure
deriving DecidableEq

/-- Exchange-name→Yahoo-suffix conversion (uploads.py lines 377-383):
default NS, empty exchange falsy, NSE→NS, BSE→BO. -/
def exchSuffix (exchange : String) : String :=
  if exchange = "" then "NS"
  else if strUpper exchange = "NSE" then "NS"
  else if strUpper exchange = "BSE" then "BO"
  else "NS"

/-- Result of enriching one holding: the (possibly partially) updated
record, whether a lookup was attempted at all, and whether the
`price_update_count` was incremented. -/
structure EnrichResult where
  holding : DBHolding
  attempted : Bool
  counted : Bool
deriving DecidableEq

/-- Application of a fetched price to a holding (uploads.py lines
386-392): `current_price`, `current_value` and `pnl` are assigned in
order; the `pnl_percentage` line divides by `quantity*average_price`
and raises `ZeroDivisionError` when that product is zero, which the
per-holding except catches — leaving the first three fields already
mutated and the counter untouched. -/
def priceApply (p : ℚ) (h : DBHolding) : EnrichResult :=
  let h1 := { h with currentPrice := p, currentValue := h.quantity * p }
  let h2 := { h1 with pnl := h1.currentValue - h.quantity * h.averagePrice }
  if h.quantity * h.averagePrice = 0 then ⟨h2, true, false⟩
  else ⟨{ h2 with pnlPercentage := h2.pnl / (h.quantity * h.averagePrice) * 100 },
        true, true⟩

/-- The STOCK/ETF lookup branch (uploads.py lines 376-393, identical in
all four endpoints): `get_stock_info` by symbol and exchange suffix;
nothing is written unless the call succeeds with a truthy price. -/
def stockEnrich (oracle : String → String → Lookup) (h : DBHolding) : EnrichResult :=
  match oracle h.symbol (exchSuffix h.exchange) with
  | .price p => if p = 0 then ⟨h, true, false⟩ else priceApply p h
  | .noData => ⟨h, true, false⟩
  | .failure => ⟨h, true, false⟩

/-- One iteration of the generic-CSV enrichment loop (uploads.py lines
374-397): only STOCK and ETF holdings get a lookup; every other asset
type falls through the `if` with no call made. -/
def genericEnrichOne (oracle : String → String → Lookup) (h : DBHolding) : EnrichResult :=
  if h.assetType = .stock ∨ h.assetType = .etf then stockEnrich oracle h
  else ⟨h, false, false⟩

/-- The MUTUAL_FUND branch of the PDF enrichment loop (uploads.py lines
797-810): `search_mutual_fund(symbol)` (fuzzy name search, `none`
models a raised exception), then `get_mutual_fund_info` on the first
result; `scheme_code` is assigned after the `pnl_percentage` line, so a
`ZeroDivisionError` there leaves it unset. -/
def pdfMfEnrich (searchOracle : String → Option (List String))
    (mfOracle : String → Lookup) (h : DBHolding) : EnrichResult :=
  match searchOracle h.symbol with
  | none => ⟨h, true, false⟩
  | some [] => ⟨h, true, false⟩
  | some (c :: _) =>
      match mfOracle c with
      | .price nav =>
          let r := priceApply nav h
          if r.counted then ⟨{ r.holding with schemeCode := some c }, true, true⟩
          else r
      | .noData => ⟨h, true, false⟩
      | .failure => ⟨h, true, false⟩

/-- One iteration of the PDF enrichment loop (uploads.py lines 776-813):
STOCK/ETF by symbol lookup, MUTUAL_FUND by fuzzy name search; SGB and
REIT holdings fall through with no call made. -/
def pdfEnrichOne (oracle : String → String → Lookup)
    (searchOracle : String → Option (List String)) (mfOracle : String → Lookup)
    (h : DBHolding) : EnrichResult :=
  if h.assetType = .stock ∨ h.assetType = .etf then stockEnrich oracle h
  else if h.assetType = .mutual_fund then pdfMfEnrich searchOracle mfOracle h
  else ⟨h, false, false⟩

/-- The enrichment query filter (uploads.py lines 369-372): holdings of
the platform account whose `current_price` is 0. -/
def isEnrichCandidate (acct : ℕ) (r : DBHolding) : Bool :=
  decide (r.platformAccountId = acct ∧ r.currentPrice = 0)

/-- The whole generic-CSV enrichment pass: each candidate row of the
store is enriched independently (the per-holding `try/except` catches
a failure and continues with the next holding); non-candidates are
untouched. -/
def genericEnrichPass (oracle : String → String → Lookup) (acct : ℕ)
    (db : List DBHolding) : List DBHolding :=
  db.map fun r => if isEnrichCandidate acct r then (genericEnrichOne oracle r).holding else r

/-- Number of lookup calls issued by the generic-CSV enrichment pass. -/
def genericEnrichAttempts (oracle : String → String → Lookup) (acct : ℕ)
    (db : List DBHolding) : ℕ :=
  (db.filter (isEnrichCandidate acct)).countP fun r => (genericEnrichOne oracle r).attempted

/-- The whole PDF enrichment pass. -/
def pdfEnrichPass (oracle : String → String → Lookup)
    (searchOracle : String → Option (List String)) (mfOracle : String → Lookup)
    (acct : ℕ) (db : List DBHolding) : List DBHolding :=
  db.map fun r =>
    if isEnrichCandidate acct r then (pdfEnrichOne oracle searchOracle mfOracle r).holding
    else r

/-- Number of lookup calls issued by the PDF enrichment pass. -/
def pdfEnrichAttempts (oracle : String → String → Lookup)
    (searchOracle : String → Option (List String)) (mfOracle : String → Lookup)
    (acct : ℕ) (db : List DBHolding) : ℕ :=
  (db.filter (isEnrichCandidate acct)).countP fun r =>
    (pdfEnrichOne oracle searchOracle mfOracle r).attempted

/-! ### Specification predicates used by the theorems -/

/-- An insert-branch record constructor carries the reconciliation key it
was inserted under and copies the parsed values. -/
def NewSpec (mkNew : ℕ → AssetType → ParsedHolding → DBHolding) : Prop :=
  ∀ acct a h,
    (mkNew acct a h).platformAccountId = acct ∧
    (mkNew acct a h).symbol = h.symbol ∧
    (mkNew acct a h).assetType = a ∧
    (mkNew acct a h).quantity = h.quantity ∧
    (mkNew acct a h).averagePrice = h.averagePrice ∧
    (mkNew acct a h).currentPrice = h.currentPrice ∧
    (mkNew acct a h).currentValue = h.currentValue ∧
    (mkNew acct a h).pnl = h.pnl ∧
    (mkNew acct a h).pnlPercentage = h.pnlPercentage

/-- An update-branch field overwrite preserves the reconciliation key of
the existing record and overwrites the six value fields with the
parsed values. -/
def UpdSpec (upd : ParsedHolding → DBHolding → DBHolding) : Prop :=
  ∀ h r,
    (upd h r).platformAccountId = r.platformAccountId ∧
    (upd h r).symbol = r.symbol ∧
    (upd h r).assetType = r.assetType ∧
    (upd h r).quantity = h.quantity ∧
    (upd h r).averagePrice = h.averagePrice ∧
    (upd h r).currentPrice = h.currentPrice ∧
    (upd h r).currentValue = h.currentValue ∧
    (upd h r).pnl = h.pnl ∧
    (upd h r).pnlPercentage = h.pnlPercentage

/-- The three-way reconciliation contract of the spec for one loop step:
no key match inserts the parsed record and bumps `imported_count`; an
exactly-equal match changes nothing but `skipped_count`; a differing
match overwrites the six value fields of the first matching record,
leaves every non-matching record untouched, and bumps `updated_count`. -/
def ThreeWayStep (step : ℕ → RState → ParsedHolding → RState)
    (amap : String → AssetType) : Prop :=
  ∀ acct st h,
    (st.db.find? (keyMatch acct h.symbol (amap (strUpper h.assetType))) = none →
      (step acct st h).imported = st.imported + 1 ∧
      (step acct st h).updated = st.updated ∧
      (step acct st h).skipped = st.skipped ∧
      ∃ r, (step acct st h).db = st.db ++ [r] ∧
        r.platformAccountId = acct ∧ r.symbol = h.symbol ∧
        r.assetType = amap (strUpper h.assetType) ∧
        r.quantity = h.quantity ∧ r.averagePrice = h.averagePrice ∧
        r.currentPrice = h.currentPrice ∧ r.currentValue = h.currentValue ∧
        r.pnl = h.pnl ∧ r.pnlPercentage = h.pnlPercentage) ∧
    (∀ e, st.db.find? (keyMatch acct h.symbol (amap (strUpper h.assetType))) = some e →
      e.quantity = h.quantity → e.averagePrice = h.averagePrice →
      step acct st h = { st with skipped := st.skipped + 1 }) ∧
    (∀ e, st.db.find? (keyMatch acct h.symbol (amap (strUpper h.assetType))) = some e →
      ¬ (e.quantity = h.quantity ∧ e.averagePrice = h.averagePrice) →
      (step acct st h).imported = st.imported ∧
      (step acct st h).updated = st.updated + 1 ∧
      (step acct st h).skipped = st.skipped ∧
      (step acct st h).db.length = st.db.length ∧
      (step acct st h).db.filter
          (fun r => !keyMatch acct h.symbol (amap (strUpper h.assetType)) r) =
        st.db.filter
          (fun r => !keyMatch acct h.symbol (amap (strUpper h.assetType)) r) ∧
      ∃ r, (step acct st h).db.find?
            (keyMatch acct h.symbol (amap (strUpper h.assetType))) = some r ∧
        r.quantity = h.quantity ∧ r.averagePrice = h.averagePrice ∧
        r.currentPrice = h.currentPrice ∧ r.currentValue = h.currentValue ∧
        r.pnl = h.pnl ∧ r.pnlPercentage = h.pnlPercentage)

/-- One reconciliation call, run twice on an unchanged parsed list whose
reconciliation keys are pairwise distinct, skips everything on the
second run: the idempotence property of the spec for one loop. -/
def IdemRun (step : ℕ → RState → ParsedHolding → RState)
    (amap : String → AssetType) : Prop :=
  ∀ acct hs db0,
    hs.Pairwise (fun h g => keyOf amap h ≠ keyOf amap g) →
    (runRecon step acct hs (runRecon step acct hs db0).db).db =
        (runRecon step acct hs db0).db ∧
    (runRecon step acct hs (runRecon step acct hs db0).db).imported = 0 ∧
    (runRecon step acct hs (runRecon step acct hs db0).db).updated = 0 ∧
    (runRecon step acct hs (runRecon step acct hs db0).db).skipped = hs.length ∧
    (runRecon step acct hs db0).imported + (runRecon step acct hs db0).updated +
        (runRecon step acct hs db0).skipped = hs.length

/-! ### Concrete instances used by witnesses and counterexamples -/

/-- A parsed stock holding (as the generic parser would emit for a row
`RELIANCE,5,10` with no current price). -/
def phRel : ParsedHolding :=
  ⟨"RELIANCE", "NSE", "stock", 5, 10, 0, 50, 0, 0, none, none⟩

/-- An existing store record exactly equal to `phRel` on the key and on
`(quantity, average_price)`. -/
def dbRel : DBHolding :=
  ⟨1, "RELIANCE", "NSE", .stock, 5, 10, 0, 50, 0, 0, none, none⟩

/-- An existing store record with the same key as `phRel` but different
quantity and average price. -/
def dbRelOld : DBHolding :=
  ⟨1, "RELIANCE", "NSE", .stock, 7, 12, 0, 84, 0, 0, none, none⟩

/-- A zero-priced REIT holding of account 1. -/
def dbReitZero : DBHolding :=
  ⟨1, "EMBASSY-RR", "NSE", .reit, 5, 10, 0, 50, 0, 0, none, none⟩

/-- A zero-priced mutual-fund holding of account 1 with a stored scheme
code. -/
def dbMfZero : DBHolding :=
  ⟨1, "HDFC Flexi Cap Fund", "MF", .mutual_fund, 5, 10, 0, 50, 0, 0, none, some "101"⟩

/-- A zero-priced stock holding of account 1. -/
def dbStockZero : DBHolding :=
  ⟨1, "RELIANCE", "NSE", .stock, 5, 10, 0, 50, 0, 0, none, none⟩

/-- A lookup oracle that always returns price 100. -/
def oracleHundred : String → String → Lookup := fun _ _ => .price 100

/-- A new-format Zerodha row whose previous closing price is 0 while
quantity and average price are positive. -/
def zRowCpZero : ZerodhaNewRow := ⟨some "RELIANCE", 5, 10, 0, 0, 0, none⟩

/-- The holding `parseZerodhaNewRow` emits for `zRowCpZero`. -/
def zHoldCpZero : ParsedHolding :=
  ⟨"RELIANCE", "NSE", "stock", 5, 10, 0, 0, 0, 0, none, none⟩

/-- A generic CSV row with resolvable quantity and average price but no
current-price column. -/
def genRowNoCp : GenRow := ⟨some "RELIANCE", .num 5, .num 10, .absent⟩

/-- A definition following the words of the spec for claim C8 (refinement): the asset
type the generic-CSV classification logic would assign to the same
cleaned symbol of an Excel stock-sheet row. -/
def excelStockAssetTypeSpec (raw : String) : String :=
  genericClassify (removeSpecialChars (stripExchangeSuffix (strTrim raw)))

/-- The holding the Excel stock-sheet parser emits for a row with symbol
NIFTYBEES, quantity 5, average price 10 and current price 20. -/
def excelBeesHold : ParsedHolding :=
  ⟨"NIFTYBEES", "NSE", "stock", 5, 10, 20, 100, 50, 100, none, none⟩

/-- The holding the PDF mutual-fund windowed extraction emits for a
scheme candidate with units 10 and NAV 50. -/
def pdfHoldEx : ParsedHolding :=
  ⟨"HDFC Flexi Cap Fund", "MF", "mutual_fund", 10, 50, 50, 500, 0, 0, none, none⟩

end SelFi


namespace SelFi

/-! ## Helper lemmas -/

theorem keyMatch_iff {acct : ℕ} {sym : String} {a : AssetType} {r : DBHolding} :
    keyMatch acct sym a r = true ↔
      r.platformAccountId = acct ∧ r.symbol = sym ∧ r.assetType = a := by
  simp [keyMatch]

theorem keyMatch_false_of_ne {acct : ℕ} {sym sym2 : String} {a a2 : AssetType}
    {r : DBHolding} (hne : (sym2, a2) ≠ (sym, a))
    (hm : keyMatch acct sym a r = true) : keyMatch acct sym2 a2 r = false := by
  rcases keyMatch_iff.1 hm with ⟨h1, h2, h3⟩
  rw [← Bool.not_eq_true]
  intro hm2
  rcases keyMatch_iff.1 hm2 with ⟨_, g2, g3⟩
  exact hne (by rw [← h2, ← h3, g2, g3])

theorem find?_updateFirst_self {α : Type} {p : α → Bool} {f : α → α}
    (hf : ∀ r, p (f r) = p r) (l : List α) :
    (updateFirst p f l).find? p = (l.find? p).map f := by
  induction l with
  | nil => simp [updateFirst]
  | cons r rs ih =>
    by_cases h : p r
    · rw [updateFirst, if_pos h, List.find?_cons_of_pos _ (by rw [hf]; exact h),
        List.find?_cons_of_pos _ h]
      rfl
    · rw [updateFirst, if_neg h, List.find?_cons_of_neg _ h,
        List.find?_cons_of_neg _ h, ih]

theorem find?_updateFirst_other {α : Type} {p q : α → Bool} {f : α → α}
    (hq : ∀ r, q (f r) = q r) (hpq : ∀ r, p r = true → q r = false)
    (l : List α) : (updateFirst p f l).find? q = l.find? q := by
  induction l with
  | nil => rfl
  | cons r rs ih =>
    by_cases h : p r
    · have hqr : q r = false := hpq r h
      rw [updateFirst, if_pos h, List.find?_cons_of_neg _ (by rw [hq, hqr]; simp),
        List.find?_cons_of_neg _ (by rw [hqr]; simp)]
    · by_cases h2 : q r
      · rw [updateFirst, if_neg h, List.find?_cons_of_pos _ h2,
          List.find?_cons_of_pos _ h2]
      · rw [updateFirst, if_neg h, List.find?_cons_of_neg _ h2,
          List.find?_cons_of_neg _ h2, ih]

theorem filter_updateFirst {α : Type} {p : α → Bool} {f : α → α}
    (hf : ∀ r, p (f r) = p r) (l : List α) :
    (updateFirst p f l).filter (fun r => !p r) = l.filter (fun r => !p r) := by
  induction l with
  | nil => rfl
  | cons r rs ih =>
    by_cases h : p r
    · rw [updateFirst, if_pos h, List.filter_cons, List.filter_cons]
      simp [hf, h]
    · rw [updateFirst, if_neg h, List.filter_cons, List.filter_cons]
      simp [h, ih]

theorem length_updateFirst {α : Type} (p : α → Bool) (f : α → α) (l : List α) :
    (updateFirst p f l).length = l.length := by
  induction l with
  | nil => rfl
  | cons r rs ih =>
    by_cases h : p r
    · rw [updateFirst, if_pos h]; rfl
    · rw [updateFirst, if_neg h]; simpa using ih

theorem newSpec_generic : NewSpec genericNew :=
  fun _ _ _ => ⟨rfl, rfl, rfl, rfl, rfl, rfl, rfl, rfl, rfl⟩

theorem newSpec_excel : NewSpec excelNew :=
  fun _ _ _ => ⟨rfl, rfl, rfl, rfl, rfl, rfl, rfl, rfl, rfl⟩

theorem newSpec_pdf : NewSpec pdfNew :=
  fun _ _ _ => ⟨rfl, rfl, rfl, rfl, rfl, rfl, rfl, rfl, rfl⟩

theorem updSpec_generic : UpdSpec genericUpd :=
  fun _ _ => ⟨rfl, rfl, rfl, rfl, rfl, rfl, rfl, rfl, rfl⟩

theorem updSpec_excel : UpdSpec excelUpd :=
  fun _ _ => ⟨rfl, rfl, rfl, rfl, rfl, rfl, rfl, rfl, rfl⟩

theorem updSpec_pdf : UpdSpec pdfUpd :=
  fun _ _ => ⟨rfl, rfl, rfl, rfl, rfl, rfl, rfl, rfl, rfl⟩

theorem reconStep_insert {amap : String → AssetType}
    {mkNew : ℕ → AssetType → ParsedHolding → DBHolding}
    {upd : ParsedHolding → DBHolding → DBHolding} {acct : ℕ} {st : RState}
    {h : ParsedHolding}
    (hf : st.db.find? (keyMatch acct h.symbol (amap (strUpper h.assetType))) = none) :
    reconStepWith amap mkNew upd acct st h =
      { st with db := st.db ++ [mkNew acct (amap (strUpper h.assetType)) h],
                imported := st.imported + 1 } := by
  unfold reconStepWith
  simp only [hf]

theorem reconStep_skip {amap : String → AssetType}
    {mkNew : ℕ → AssetType → ParsedHolding → DBHolding}
    {upd : ParsedHolding → DBHolding → DBHolding} {acct : ℕ} {st : RState}
    {h : ParsedHolding} {e : DBHolding}
    (hf : st.db.find? (keyMatch acct h.symbol (amap (strUpper h.assetType))) = some e)
    (hq : e.quantity = h.quantity) (ha : e.averagePrice = h.averagePrice) :
    reconStepWith amap mkNew upd acct st h = { st with skipped := st.skipped + 1 } := by
  unfold reconStepWith
  simp only [hf]
  rw [if_pos ⟨hq, ha⟩]

theorem reconStep_update {amap : String → AssetType}
    {mkNew : ℕ → AssetType → ParsedHolding → DBHolding}
    {upd : ParsedHolding → DBHolding → DBHolding} {acct : ℕ} {st : RState}
    {h : ParsedHolding} {e : DBHolding}
    (hf : st.db.find? (keyMatch acct h.symbol (amap (strUpper h.assetType))) = some e)
    (hne : ¬ (e.quantity = h.quantity ∧ e.averagePrice = h.averagePrice)) :
    reconStepWith amap mkNew upd acct st h =
      { st with db := updateFirst (keyMatch acct h.symbol (amap (strUpper h.assetType)))
                        (upd h) st.db,
                updated := st.updated + 1 } := by
  unfold reconStepWith
  simp only [hf]
  rw [if_neg hne]

theorem updSpec_keyMatch {upd : ParsedHolding → DBHolding → DBHolding}
    (hU : UpdSpec upd) (acct : ℕ) (sym : String) (a : AssetType)
    (h : ParsedHolding) (r : DBHolding) :
    keyMatch acct sym a (upd h r) = keyMatch acct sym a r := by
  obtain ⟨h1, h2, h3, _⟩ := hU h r
  simp [keyMatch, h1, h2, h3]

theorem reconStep_synced {amap : String → AssetType}
    {mkNew : ℕ → AssetType → ParsedHolding → DBHolding}
    {upd : ParsedHolding → DBHolding → DBHolding}
    (hN : NewSpec mkNew) (hU : UpdSpec upd) (acct : ℕ) (st : RState)
    (h : ParsedHolding) :
    ∃ r, (reconStepWith amap mkNew upd acct st h).db.find?
        (keyMatch acct h.symbol (amap (strUpper h.assetType))) = some r ∧
      r.quantity = h.quantity ∧ r.averagePrice = h.averagePrice := by
  cases hf : st.db.find? (keyMatch acct h.symbol (amap (strUpper h.assetType))) with
  | none =>
    obtain ⟨p1, p2, p3, p4, p5, _⟩ := hN acct (amap (strUpper h.assetType)) h
    refine ⟨mkNew acct (amap (strUpper h.assetType)) h, ?_, p4, p5⟩
    rw [reconStep_insert hf]
    simp only [List.find?_append, hf, Option.none_or]
    rw [List.find?_cons_of_pos _ (keyMatch_iff.2 ⟨p1, p2, p3⟩)]
  | some e =>
    by_cases hqa : e.quantity = h.quantity ∧ e.averagePrice = h.averagePrice
    · rw [reconStep_skip hf hqa.1 hqa.2]
      exact ⟨e, hf, hqa.1, hqa.2⟩
    · obtain ⟨_, _, _, q4, q5, _⟩ := hU h e
      refine ⟨upd h e, ?_, q4, q5⟩
      rw [reconStep_update hf hqa]
      have heq := find?_updateFirst_self
        (fun r => updSpec_keyMatch hU acct h.symbol (amap (strUpper h.assetType)) h r) st.db
      rw [heq, hf]
      rfl

theorem reconStep_other_find? {amap : String → AssetType}
    {mkNew : ℕ → AssetType → ParsedHolding → DBHolding}
    {upd : ParsedHolding → DBHolding → DBHolding}
    (hN : NewSpec mkNew) (hU : UpdSpec upd) (acct : ℕ) (st : RState)
    (h : ParsedHolding) {sym : String} {a : AssetType}
    (hne : (sym, a) ≠ (h.symbol, amap (strUpper h.assetType))) :
    (reconStepWith amap mkNew upd acct st h).db.find? (keyMatch acct sym a) =
      st.db.find? (keyMatch acct sym a) := by
  cases hf : st.db.find? (keyMatch acct h.symbol (amap (strUpper h.assetType))) with
  | none =>
    obtain ⟨p1, p2, p3, _⟩ := hN acct (amap (strUpper h.assetType)) h
    rw [reconStep_insert hf]
    simp only [List.find?_append]
    have hnm : keyMatch acct sym a (mkNew acct (amap (strUpper h.assetType)) h) = false :=
      keyMatch_false_of_ne hne (keyMatch_iff.2 ⟨p1, p2, p3⟩)
    rw [List.find?_cons_of_neg _ (by rw [hnm]; simp), List.find?_nil]
    cases st.db.find? (keyMatch acct sym a) <;> rfl
  | some e =>
    by_cases hqa : e.quantity = h.quantity ∧ e.averagePrice = h.averagePrice
    · rw [reconStep_skip hf hqa.1 hqa.2]
    · rw [reconStep_update hf hqa]
      exact find?_updateFirst_other
        (fun r => updSpec_keyMatch hU acct sym a h r)
        (fun r hm => keyMatch_false_of_ne hne hm) st.db

theorem reconStep_total {amap : String → AssetType}
    {mkNew : ℕ → AssetType → ParsedHolding → DBHolding}
    {upd : ParsedHolding → DBHolding → DBHolding} (acct : ℕ) (st : RState)
    (h : ParsedHolding) :
    (reconStepWith amap mkNew upd acct st h).imported +
        (reconStepWith amap mkNew upd acct st h).updated +
        (reconStepWith amap mkNew upd acct st h).skipped =
      st.imported + st.updated + st.skipped + 1 := by
  cases hf : st.db.find? (keyMatch acct h.symbol (amap (strUpper h.assetType))) with
  | none => rw [reconStep_insert hf]; dsimp only; omega
  | some e =>
    by_cases hqa : e.quantity = h.quantity ∧ e.averagePrice = h.averagePrice
    · rw [reconStep_skip hf hqa.1 hqa.2]; dsimp only; omega
    · rw [reconStep_update hf hqa]; dsimp only; omega

theorem fold_preserves_find? {amap : String → AssetType}
    {mkNew : ℕ → AssetType → ParsedHolding → DBHolding}
    {upd : ParsedHolding → DBHolding → DBHolding}
    (hN : NewSpec mkNew) (hU : UpdSpec upd) (acct : ℕ) {sym : String}
    {a : AssetType} (gs : List ParsedHolding)
    (hgs : ∀ g ∈ gs, (sym, a) ≠ keyOf amap g) (st : RState) :
    ((gs.foldl (reconStepWith amap mkNew upd acct) st).db.find? (keyMatch acct sym a)) =
      st.db.find? (keyMatch acct sym a) := by
  induction gs generalizing st with
  | nil => rfl
  | cons g gs ih =>
    rw [List.foldl_cons, ih (fun x hx => hgs x (List.mem_cons_of_mem g hx))]
    exact reconStep_other_find? hN hU acct st g (hgs g (List.mem_cons_self g gs))

theorem run_synced {amap : String → AssetType}
    {mkNew : ℕ → AssetType → ParsedHolding → DBHolding}
    {upd : ParsedHolding → DBHolding → DBHolding}
    (hN : NewSpec mkNew) (hU : UpdSpec upd) (acct : ℕ)
    (hs : List ParsedHolding)
    (hd : hs.Pairwise (fun h g => keyOf amap h ≠ keyOf amap g)) (st : RState) :
    ∀ h ∈ hs, ∃ r, ((hs.foldl (reconStepWith amap mkNew upd acct) st).db.find?
        (keyMatch acct h.symbol (amap (strUpper h.assetType)))) = some r ∧
      r.quantity = h.quantity ∧ r.averagePrice = h.averagePrice := by
  induction hs generalizing st with
  | nil => simp
  | cons h0 hs ih =>
    rcases List.pairwise_cons.1 hd with ⟨hhead, htail⟩
    intro h hm
    rcases List.mem_cons.1 hm with rfl | hmem
    · obtain ⟨r, hr, hq, ha⟩ := reconStep_synced hN hU acct st h
      refine ⟨r, ?_, hq, ha⟩
      rw [List.foldl_cons,
        fold_preserves_find? hN hU acct hs (fun g hg => hhead g hg) _]
      exact hr
    · rw [List.foldl_cons]
      exact ih htail _ h hmem

theorem run_all_skip (amap : String → AssetType)
    (mkNew : ℕ → AssetType → ParsedHolding → DBHolding)
    (upd : ParsedHolding → DBHolding → DBHolding) (acct : ℕ)
    (hs : List ParsedHolding) (db : List DBHolding)
    (hsync : ∀ h ∈ hs, ∃ r,
        db.find? (keyMatch acct h.symbol (amap (strUpper h.assetType))) = some r ∧
        r.quantity = h.quantity ∧ r.averagePrice = h.averagePrice)
    (i u s : ℕ) :
    hs.foldl (reconStepWith amap mkNew upd acct) ⟨db, i, u, s⟩ =
      ⟨db, i, u, s + hs.length⟩ := by
  induction hs generalizing s with
  | nil => rfl
  | cons h0 hs ih =>
    obtain ⟨r, hr, hq, ha⟩ := hsync h0 (List.mem_cons_self h0 hs)
    rw [List.foldl_cons, reconStep_skip hr hq ha]
    dsimp only
    rw [ih (fun h hm => hsync h (List.mem_cons_of_mem h0 hm)) (s + 1)]
    congr 1
    simp [List.length_cons]
    omega

theorem run_total (amap : String → AssetType)
    (mkNew : ℕ → AssetType → ParsedHolding → DBHolding)
    (upd : ParsedHolding → DBHolding → DBHolding) (acct : ℕ)
    (hs : List ParsedHolding) (st : RState) :
    (hs.foldl (reconStepWith amap mkNew upd acct) st).imported +
        (hs.foldl (reconStepWith amap mkNew upd acct) st).updated +
        (hs.foldl (reconStepWith amap mkNew upd acct) st).skipped =
      st.imported + st.updated + st.skipped + hs.length := by
  induction hs generalizing st with
  | nil => simp
  | cons h0 hs ih =>
    rw [List.foldl_cons]
    rw [ih (reconStepWith amap mkNew upd acct st h0)]
    rw [reconStep_total acct st h0]
    simp
    omega

theorem reconStepWith_idem {amap : String → AssetType}
    {mkNew : ℕ → AssetType → ParsedHolding → DBHolding}
    {upd : ParsedHolding → DBHolding → DBHolding}
    (hN : NewSpec mkNew) (hU : UpdSpec upd) :
    IdemRun (reconStepWith amap mkNew upd) amap := by
  intro acct hs db0 hd
  have hsync := run_synced hN hU acct hs hd ⟨db0, 0, 0, 0⟩
  have hrun2 := run_all_skip amap mkNew upd acct hs
    (runRecon (reconStepWith amap mkNew upd) acct hs db0).db hsync 0 0 0
  have htot := run_total amap mkNew upd acct hs (⟨db0, 0, 0, 0⟩ : RState)
  unfold runRecon at hrun2 ⊢
  rw [hrun2]
  refine ⟨rfl, rfl, rfl, by simp, by simpa using htot⟩

theorem reconStepWith_three_way {amap : String → AssetType}
    {mkNew : ℕ → AssetType → ParsedHolding → DBHolding}
    {upd : ParsedHolding → DBHolding → DBHolding}
    (hN : NewSpec mkNew) (hU : UpdSpec upd) :
    ThreeWayStep (reconStepWith amap mkNew upd) amap := by
  intro acct st h
  refine ⟨?_, ?_, ?_⟩
  · intro hf
    rw [reconStep_insert hf]
    obtain ⟨p1, p2, p3, p4, p5, p6, p7, p8, p9⟩ :=
      hN acct (amap (strUpper h.assetType)) h
    exact ⟨rfl, rfl, rfl,
      ⟨mkNew acct (amap (strUpper h.assetType)) h, rfl,
        p1, p2, p3, p4, p5, p6, p7, p8, p9⟩⟩
  · intro e hf hq ha
    exact reconStep_skip hf hq ha
  · intro e hf hne
    rw [reconStep_update hf hne]
    obtain ⟨_, _, _, q4, q5, q6, q7, q8, q9⟩ := hU h e
    have hkey := fun r =>
      updSpec_keyMatch hU acct h.symbol (amap (strUpper h.assetType)) h r
    refine ⟨rfl, rfl, rfl, length_updateFirst _ _ _, filter_updateFirst hkey st.db,
      ⟨upd h e, ?_, q4, q5, q6, q7, q8, q9⟩⟩
    rw [find?_updateFirst_self hkey st.db, hf]
    rfl

theorem zerodhaStep_match {acct : ℕ} {st : RState} {h : ParsedHolding} {e : DBHolding}
    (hf : st.db.find?
        (keyMatch acct h.symbol (assetTypeMapFull (strUpper h.assetType))) = some e) :
    (zerodhaStep acct st h).imported = st.imported + 1 ∧
    (zerodhaStep acct st h).updated = st.updated + 1 ∧
    (zerodhaStep acct st h).skipped = st.skipped := by
  unfold zerodhaStep
  simp [hf]

theorem zerodhaStep_insert {acct : ℕ} {st : RState} {h : ParsedHolding}
    (hf : st.db.find?
        (keyMatch acct h.symbol (assetTypeMapFull (strUpper h.assetType))) = none) :
    zerodhaStep acct st h =
      { st with db := st.db ++ [zerodhaNew acct (assetTypeMapFull (strUpper h.assetType)) h],
                imported := st.imported + 1 } := by
  unfold zerodhaStep
  simp only [hf]

theorem priceApply_attempted (p : ℚ) (h : DBHolding) :
    (priceApply p h).attempted = true := by
  unfold priceApply
  split <;> rfl

theorem stockEnrich_attempted (oracle : String → String → Lookup) (h : DBHolding) :
    (stockEnrich oracle h).attempted = true := by
  unfold stockEnrich
  cases ho : oracle h.symbol (exchSuffix h.exchange) with
  | price p =>
    dsimp only
    by_cases hp : p = 0
    · rw [if_pos hp]
    · rw [if_neg hp]
      exact priceApply_attempted p h
  | noData => rfl
  | failure => rfl

theorem pdfMfEnrich_attempted (searchOracle : String → Option (List String))
    (mfOracle : String → Lookup) (h : DBHolding) :
    (pdfMfEnrich searchOracle mfOracle h).attempted = true := by
  unfold pdfMfEnrich
  cases hs : searchOracle h.symbol with
  | none => rfl
  | some l =>
    cases l with
    | nil => rfl
    | cons c cs =>
      dsimp only
      cases hm : mfOracle c with
      | price nav =>
        dsimp only
        by_cases hc : (priceApply nav h).counted = true
        · rw [if_pos hc]
        · rw [if_neg hc]
          exact priceApply_attempted nav h
      | noData => rfl
      | failure => rfl

theorem genRow_fields (idx : ℕ) (row : GenRow) (h : ParsedHolding)
    (w : Option ImportWarning) (hp : parseGenericRow idx row = some (h, w)) :
    (row.quantity = Cell.absent → h.quantity = 1 ∧
      ∃ wv, w = some wv ∧ "quantity" ∈ wv.missingFields) ∧
    (row.quantity = Cell.invalid → h.quantity = 1 ∧
      ∀ wv, w = some wv → "quantity" ∉ wv.missingFields) ∧
    (row.avgPrice = Cell.absent → h.averagePrice = 0 ∧
      ∃ wv, w = some wv ∧ "average_price" ∈ wv.missingFields) ∧
    (row.avgPrice = Cell.invalid → h.averagePrice = 0 ∧
      ∃ wv, w = some wv ∧ "average_price (invalid value)" ∈ wv.missingFields) ∧
    ((row.currentPrice = Cell.absent ∨ row.currentPrice = Cell.invalid) →
      h.currentPrice = 0) ∧
    (∀ wv, w = some wv → ∀ fld ∈ wv.missingFields,
      fld = "quantity" ∨ fld = "average_price" ∨
        fld = "average_price (invalid value)") := by
  obtain ⟨sym, qc, ac, cc⟩ := row
  cases sym with
  | none => exact absurd hp (by simp [parseGenericRow])
  | some raw =>
    cases qc <;> cases ac <;> cases cc <;>
      (simp only [parseGenericRow, Option.some.injEq, Prod.mk.injEq] at hp
       obtain ⟨rfl, rfl⟩ := hp
       refine ⟨?_, ?_, ?_, ?_, ?_, ?_⟩ <;> simp_all)

theorem genericRowsFrom_quantity_absent (rows : List GenRow)
    (hall : ∀ r ∈ rows, r.quantity = Cell.absent) (i : ℕ) :
    (∀ h ∈ (parseGenericRowsFrom i rows).1, h.quantity = 1) ∧
    (∀ wv ∈ (parseGenericRowsFrom i rows).2, "quantity" ∈ wv.missingFields) ∧
    (parseGenericRowsFrom i rows).2.length = (parseGenericRowsFrom i rows).1.length := by
  induction rows generalizing i with
  | nil => simp [parseGenericRowsFrom]
  | cons r rs ih =>
    have hr := hall r (List.mem_cons_self r rs)
    have ihr := ih (fun x hx => hall x (List.mem_cons_of_mem r hx)) (i + 1)
    cases hp : parseGenericRow i r with
    | none =>
      unfold parseGenericRowsFrom
      simpa [hp] using ihr
    | some pr =>
      obtain ⟨h, w⟩ := pr
      obtain ⟨hq1, wv, hwv, hmem⟩ := (genRow_fields i r h w hp).1 hr
      subst hwv
      unfold parseGenericRowsFrom
      simp only [hp]
      refine ⟨?_, ?_, ?_⟩
      · intro x hx
        rcases List.mem_cons.1 hx with rfl | hx2
        · exact hq1
        · exact ihr.1 x hx2
      · intro x hx
        rcases List.mem_cons.1 hx with rfl | hx2
        · exact hmem
        · exact ihr.2.1 x hx2
      · simp [ihr.2.2]

/-! ## Claim theorems -/

/-- C1 (counterexample): on the Zerodha upload path, a parsed holding
whose key match has exactly equal `(quantity, average_price)` is not
skipped as the claim states — the loop reports `updated_count = 1` and
`imported_count = 1` with no skip counter at all. -/
theorem c1_zerodha_skip_counterexample :
    dbRel.quantity = phRel.quantity ∧ dbRel.averagePrice = phRel.averagePrice ∧
    (zerodhaReconcile 1 [phRel] [dbRel]).updated = 1 ∧
    (zerodhaReconcile 1 [phRel] [dbRel]).imported = 1 ∧
    (zerodhaReconcile 1 [phRel] [dbRel]).skipped = 0 := by
  with_unfolding_all decide

/-- C1 (amended): the three-way insert/skip/update reconciliation
decision on the key `(platform_account_id, symbol, asset_type)` holds
on the generic-CSV, Excel and PDF upload paths.  On the Zerodha path
the decision is two-way: a key match is always overwritten
(`updated_count` incremented, never skipped) and `imported_count` is
incremented for every parsed holding; no match inserts. -/
theorem c1_amended_three_way :
    ThreeWayStep genericStep assetTypeMapFull ∧
    ThreeWayStep excelStep assetTypeMapExcel ∧
    ThreeWayStep pdfStep assetTypeMapFull ∧
    (∀ acct st h e,
      st.db.find? (keyMatch acct h.symbol (assetTypeMapFull (strUpper h.assetType))) =
          some e →
      (zerodhaStep acct st h).imported = st.imported + 1 ∧
      (zerodhaStep acct st h).updated = st.updated + 1 ∧
      (zerodhaStep acct st h).skipped = st.skipped) ∧
    (∀ acct st h,
      st.db.find? (keyMatch acct h.symbol (assetTypeMapFull (strUpper h.assetType))) =
          none →
      zerodhaStep acct st h =
        { st with
            db := st.db ++ [zerodhaNew acct (assetTypeMapFull (strUpper h.assetType)) h],
            imported := st.imported + 1 }) :=
  ⟨reconStepWith_three_way newSpec_generic updSpec_generic,
   reconStepWith_three_way newSpec_excel updSpec_excel,
   reconStepWith_three_way newSpec_pdf updSpec_pdf,
   fun _ _ _ _ hf => zerodhaStep_match hf,
   fun _ _ _ hf => zerodhaStep_insert hf⟩

/-- Witness for C1 (amended): the generic loop skips an exactly-equal
duplicate, incrementing only the skip counter. -/
theorem c1_amended_three_way_witness :
    genericStep 1 ⟨[dbRel], 0, 0, 0⟩ phRel = ⟨[dbRel], 0, 0, 1⟩ :=
  (c1_amended_three_way.1 1 ⟨[dbRel], 0, 0, 0⟩ phRel).2.1 dbRel
    (by with_unfolding_all decide) (by with_unfolding_all decide)
    (by with_unfolding_all decide)

/-- C2 (counterexample): reconciling the same single-holding list twice
through the Zerodha path yields `imported_count = 1` and
`updated_count = 1` on the second run (with no skip counter), not
`skipped_count = 1`, `imported_count = 0`, `updated_count = 0` as the
claim states for every upload path. -/
theorem c2_zerodha_idempotence_counterexample :
    (zerodhaReconcile 1 [phRel] (zerodhaReconcile 1 [phRel] []).db).imported = 1 ∧
    (zerodhaReconcile 1 [phRel] (zerodhaReconcile 1 [phRel] []).db).updated = 1 ∧
    (zerodhaReconcile 1 [phRel] (zerodhaReconcile 1 [phRel] []).db).skipped = 0 := by
  with_unfolding_all decide

/-- C2 (amended): on the generic-CSV, Excel and PDF paths, reconciling an
unchanged parsed holding set with pairwise-distinct reconciliation keys
twice in a row leaves the store unchanged on the second run and yields
`skipped_count = N`, `imported_count = 0`, `updated_count = 0`, where
`N` is the list length, which also equals the sum of the three
counters of the first run. -/
theorem c2_amended_idempotence :
    IdemRun genericStep assetTypeMapFull ∧
    IdemRun excelStep assetTypeMapExcel ∧
    IdemRun pdfStep assetTypeMapFull :=
  ⟨reconStepWith_idem newSpec_generic updSpec_generic,
   reconStepWith_idem newSpec_excel updSpec_excel,
   reconStepWith_idem newSpec_pdf updSpec_pdf⟩

/-- Witness for C2 (amended): a one-element import against an empty store,
run twice through the generic path, skips exactly that one holding. -/
theorem c2_amended_idempotence_witness :
    (runRecon genericStep 1 [phRel] (runRecon genericStep 1 [phRel] []).db).skipped = 1 ∧
    (runRecon genericStep 1 [phRel] (runRecon genericStep 1 [phRel] []).db).imported = 0 :=
  ⟨(c2_amended_idempotence.1 1 [phRel] [] (by simp)).2.2.2.1,
   (c2_amended_idempotence.1 1 [phRel] [] (by simp)).2.1⟩

/-- C5: an exception at any holding of the persistence loop rolls the
store back to its committed state (no partial inserts or updates are
published) and marks the import record failed with the captured error
detail; no counters are reported. -/
theorem c5_persistence_rollback
    (step : ℕ → RState → ParsedHolding → RState) (acct : ℕ)
    (hs : List ParsedHolding) (k : ℕ) (s : Session) (rec : ImportRec)
    (hk : k < hs.length) :
    (persistPhase step acct hs (some k) s rec).session.committed = s.committed ∧
    (persistPhase step acct hs (some k) s rec).session.view = s.committed ∧
    (persistPhase step acct hs (some k) s rec).record.status = "failed" ∧
    (persistPhase step acct hs (some k) s rec).record.errorMessage =
      some "exception while processing holding" ∧
    (persistPhase step acct hs (some k) s rec).counts = none := by
  have herr : ∀ (l : List ParsedHolding) (i : ℕ) (st : RState), i ≤ k →
      k < i + l.length →
      runBatchFrom step acct (some k) l i st =
        .error "exception while processing holding" := by
    intro l
    induction l with
    | nil =>
      intro i st h1 h2
      simp only [List.length_nil, Nat.add_zero] at h2
      omega
    | cons hh tt ih =>
      intro i st h1 h2
      by_cases hik : k = i
      · unfold runBatchFrom
        rw [if_pos (by rw [hik])]
      · unfold runBatchFrom
        rw [if_neg (by simp only [Option.some.injEq]; omega)]
        exact ih (i + 1) _ (by omega) (by simp only [List.length_cons] at h2; omega)
  unfold persistPhase
  rw [herr hs 0 _ (by omega) (by simpa using hk)]
  exact ⟨rfl, rfl, rfl, rfl, rfl⟩

/-- Witness for C5: a failure at the first holding of a one-element batch
leaves the previously committed record untouched and marks the import
failed. -/
theorem c5_persistence_rollback_witness :
    (persistPhase genericStep 1 [phRel] (some 0) ⟨[dbRelOld], [dbRelOld]⟩
        ⟨"processing", none⟩).session.committed = [dbRelOld] ∧
    (persistPhase genericStep 1 [phRel] (some 0) ⟨[dbRelOld], [dbRelOld]⟩
        ⟨"processing", none⟩).record.status = "failed" :=
  ⟨(c5_persistence_rollback genericStep 1 [phRel] 0 ⟨[dbRelOld], [dbRelOld]⟩
      ⟨"processing", none⟩ (by decide)).1,
   (c5_persistence_rollback genericStep 1 [phRel] 0 ⟨[dbRelOld], [dbRelOld]⟩
      ⟨"processing", none⟩ (by decide)).2.2.1⟩

/-- C3 (counterexample): the new-format Zerodha parser emits, for a row
with previous closing price 0, quantity 5 and average price 10, a
holding with `current_value = 0`, violating the claimed invariant
`current_value = quantity*average_price` when `current_price` is not
positive. -/
theorem c3_zerodha_current_value_counterexample :
    parseZerodhaNewRow zRowCpZero = some zHoldCpZero ∧ ¬ cvInvariant zHoldCpZero := by
  with_unfolding_all decide

/-- C3 (amended): the invariant `current_value = quantity*current_price`
when `current_price > 0`, else `quantity*average_price`, holds for
every holding emitted by the generic CSV parser and by the Excel
stock-sheet parser; the new-format Zerodha parser instead sets
`current_value = quantity*current_price` unconditionally (also when
the price is 0), and the legacy Zerodha, Excel mutual-fund and PDF
parsers take `current_value` from the file or leave it 0. -/
theorem c3_amended_current_value_invariant :
    (∀ idx row h w, parseGenericRow idx row = some (h, w) → cvInvariant h) ∧
    (∀ idx sheet row h w, parseExcelStockRow idx sheet row = some (h, w) →
      cvInvariant h) ∧
    (∀ row h, parseZerodhaNewRow row = some h →
      h.currentValue = h.quantity * h.currentPrice) := by
  refine ⟨?_, ?_, ?_⟩
  · intro idx row h w hp
    obtain ⟨sym, qc, ac, cc⟩ := row
    cases sym with
    | none => exact absurd hp (by simp [parseGenericRow])
    | some raw =>
      simp only [parseGenericRow, Option.some.injEq, Prod.mk.injEq] at hp
      obtain ⟨rfl, -⟩ := hp
      constructor
      · intro hc
        simp only [if_pos hc]
      · intro hc
        simp only [if_neg hc]
  · intro idx sheet row h w hp
    obtain ⟨sym, qc, ac, cc⟩ := row
    cases sym with
    | none => exact absurd hp (by simp [parseExcelStockRow])
    | some raw =>
      simp only [parseExcelStockRow, Option.some.injEq, Prod.mk.injEq] at hp
      obtain ⟨rfl, -⟩ := hp
      constructor
      · intro hc
        simp only [if_pos hc]
      · intro hc
        simp only [if_neg hc]
  · intro row h hp
    obtain ⟨sym, q1, q2, q3, q4, q5, is⟩ := row
    cases sym with
    | none => exact absurd hp (by simp [parseZerodhaNewRow])
    | some raw =>
      simp only [parseZerodhaNewRow] at hp
      split at hp
      · exact absurd hp (by simp)
      · simp only [Option.some.injEq] at hp
        obtain rfl := hp.symm
        rfl

/-- Witness for C3 (amended): the output of the generic parser for a row
without a current price satisfies the invariant. -/
theorem c3_amended_current_value_invariant_witness : cvInvariant phRel :=
  c3_amended_current_value_invariant.1 0 genRowNoCp phRel none
    (by with_unfolding_all decide)

/-- C4 (counterexample): the generic CSV parser classifies SGBMAR29 as
stock (its SGB rule also requires GOLD in the symbol) and classifies a
symbol containing both REIT and ETF as etf (its ETF rule is checked
first), contradicting the claimed fixed priority REIT, SGB, ETF for
every classifying parser path. -/
theorem c4_generic_priority_counterexample :
    genericClassify "SGBMAR29" = "stock" ∧
    genericClassify "REITETF" = "etf" ∧
    zerodhaClassify "REITETF" none = "reit" := by decide

/-- C4 (amended): the priority order REIT, then SGB, then ETF, then STOCK
with the stated membership rules holds in the Zerodha CSV parser
(symbol rule: contains ETF, allowlist member, or ends in BEES; plus
the ETF-series-ISIN rule), and NIFTYBEES→etf, SGBMAR29→sgb,
MINDSPACE-RR→reit, RELIANCE→stock there.  The generic CSV path instead
tests ETF first (contains ETF, or ends in BEES or NAV), then SGB only
when the symbol contains both GOLD and SGB, then REIT, so a symbol
containing ETF always classifies etf there; NIFTYBEES→etf,
MINDSPACE-RR→reit and RELIANCE→stock still hold on the generic path. -/
theorem c4_amended_classification :
    (∀ s isin, zerodhaReitCond (strUpper s) = true →
      zerodhaClassify s isin = "reit") ∧
    (∀ s isin, zerodhaReitCond (strUpper s) = false →
      zerodhaSgbCond (strUpper s) = true → zerodhaClassify s isin = "sgb") ∧
    (∀ s isin, zerodhaReitCond (strUpper s) = false →
      zerodhaSgbCond (strUpper s) = false →
      (zerodhaEtfSymCond (strUpper s) = true ∨ isinEtfCond isin = true) →
      zerodhaClassify s isin = "etf") ∧
    (∀ s isin, zerodhaReitCond (strUpper s) = false →
      zerodhaSgbCond (strUpper s) = false →
      zerodhaEtfSymCond (strUpper s) = false → isinEtfCond isin = false →
      zerodhaClassify s isin = "stock") ∧
    (zerodhaClassify "NIFTYBEES" none = "etf" ∧
     zerodhaClassify "SGBMAR29" none = "sgb" ∧
     zerodhaClassify "MINDSPACE-RR" none = "reit" ∧
     zerodhaClassify "RELIANCE" none = "stock") ∧
    (genericClassify "NIFTYBEES" = "etf" ∧
     genericClassify "MINDSPACE-RR" = "reit" ∧
     genericClassify "RELIANCE" = "stock") ∧
    (∀ s, strContains (strUpper s) "ETF" = true → genericClassify s = "etf") := by
  refine ⟨?_, ?_, ?_, ?_, by decide, by decide, ?_⟩
  · intro s isin hr
    unfold zerodhaClassify
    simp [hr]
  · intro s isin hr hs
    unfold zerodhaClassify
    simp [hr, hs]
  · intro s isin hr hs he
    unfold zerodhaClassify
    rcases he with he | he
    · simp [hr, hs, he]
    · cases hsym : zerodhaEtfSymCond (strUpper s) <;> simp [hr, hs, he, hsym]
  · intro s isin hr hs he hi
    unfold zerodhaClassify
    simp [hr, hs, he, hi]
  · intro s he
    unfold genericClassify
    simp [he]

/-- Witness for C4 (amended): the REIT rule fires with top priority in
the Zerodha classifier. -/
theorem c4_amended_classification_witness :
    zerodhaClassify "EMBASSY-RR" none = "reit" :=
  c4_amended_classification.1 "EMBASSY-RR" none (by decide)

/-- C6 (counterexample): the generic-path enrichment pass issues no
lookup for a zero-priced REIT holding or a zero-priced mutual-fund
holding — both are candidates by the claimed rule (`current_price ==
0`) yet zero lookups are attempted and nothing is recomputed. -/
theorem c6_enrichment_counterexample :
    isEnrichCandidate 1 dbReitZero = true ∧
    isEnrichCandidate 1 dbMfZero = true ∧
    genericEnrichAttempts oracleHundred 1 [dbReitZero, dbMfZero] = 0 ∧
    genericEnrichPass oracleHundred 1 [dbReitZero, dbMfZero] =
      [dbReitZero, dbMfZero] := by
  with_unfolding_all decide

/-- C6 (amended): the enrichment pass attempts a lookup exactly for the
zero-priced holdings of the account whose asset type is STOCK or ETF
(generic path), or STOCK, ETF or MUTUAL_FUND (PDF path, mutual funds
via fuzzy name search); SGB and REIT holdings are never attempted.
Each holding is processed independently, so a lookup failure for one
holding never prevents the remaining holdings from being attempted,
and a successful lookup with a non-zero price recomputes
`current_price`, `current_value`, `pnl` and `pnl_percentage` (the
last only when `quantity*average_price` is non-zero). -/
theorem c6_amended_enrichment :
    (∀ oracle r, (genericEnrichOne oracle r).attempted = true ↔
      (r.assetType = AssetType.stock ∨ r.assetType = AssetType.etf)) ∧
    (∀ oracle sOr mOr r, (pdfEnrichOne oracle sOr mOr r).attempted = true ↔
      (r.assetType = AssetType.stock ∨ r.assetType = AssetType.etf ∨
        r.assetType = AssetType.mutual_fund)) ∧
    (∀ oracle acct l1 r l2,
      genericEnrichPass oracle acct (l1 ++ r :: l2) =
        genericEnrichPass oracle acct l1 ++
          (if isEnrichCandidate acct r then (genericEnrichOne oracle r).holding
           else r) :: genericEnrichPass oracle acct l2) ∧
    (∀ oracle r p, (r.assetType = AssetType.stock ∨ r.assetType = AssetType.etf) →
      oracle r.symbol (exchSuffix r.exchange) = Lookup.price p → p ≠ 0 →
      r.quantity * r.averagePrice ≠ 0 →
      (genericEnrichOne oracle r).holding.currentPrice = p ∧
      (genericEnrichOne oracle r).holding.currentValue = r.quantity * p ∧
      (genericEnrichOne oracle r).holding.pnl =
        r.quantity * p - r.quantity * r.averagePrice ∧
      (genericEnrichOne oracle r).holding.pnlPercentage =
        (r.quantity * p - r.quantity * r.averagePrice) /
          (r.quantity * r.averagePrice) * 100 ∧
      (genericEnrichOne oracle r).counted = true) := by
  refine ⟨?_, ?_, ?_, ?_⟩
  · intro oracle r
    unfold genericEnrichOne
    by_cases hc : r.assetType = AssetType.stock ∨ r.assetType = AssetType.etf
    · rw [if_pos hc]
      simp [stockEnrich_attempted, hc]
    · rw [if_neg hc]
      simpa using hc
  · intro oracle sOr mOr r
    unfold pdfEnrichOne
    by_cases hc : r.assetType = AssetType.stock ∨ r.assetType = AssetType.etf
    · rw [if_pos hc]
      simp [stockEnrich_attempted, hc]
      tauto
    · rw [if_neg hc]
      by_cases hm : r.assetType = AssetType.mutual_fund
      · rw [if_pos hm]
        simp [pdfMfEnrich_attempted, hm]
      · rw [if_neg hm]
        simp only [Bool.false_eq_true, false_iff]
        tauto
  · intro oracle acct l1 r l2
    unfold genericEnrichPass
    rw [List.map_append, List.map_cons]
  · intro oracle r p hc ho hp0 hz
    unfold genericEnrichOne
    rw [if_pos hc]
    unfold stockEnrich
    simp only [ho]
    rw [if_neg hp0]
    unfold priceApply
    rw [if_neg hz]
    exact ⟨rfl, rfl, rfl, rfl, rfl⟩

/-- Witness for C6 (amended): a zero-priced stock holding is attempted,
and a successful lookup at price 100 recomputes its fields. -/
theorem c6_amended_enrichment_witness :
    (genericEnrichOne oracleHundred dbStockZero).attempted = true ∧
    (genericEnrichOne oracleHundred dbStockZero).holding.currentPrice = 100 :=
  ⟨(c6_amended_enrichment.1 oracleHundred dbStockZero).2 (Or.inl rfl),
   ((c6_amended_enrichment.2.2.2 oracleHundred dbStockZero 100 (Or.inl rfl)
      rfl (by norm_num) (by with_unfolding_all decide))).1⟩

/-- C7 (counterexample): a generic CSV row whose current-price column is
unresolvable is emitted with `current_price` defaulted to 0 but with no
warning at all — no per-row warning naming the defaulted field is
generated, contradicting the claim for the current-price field. -/
theorem c7_current_price_warning_counterexample :
    parseGenericRow 0 genRowNoCp = some (phRel, none) ∧
    genRowNoCp.currentPrice = Cell.absent ∧ phRel.currentPrice = 0 := by
  with_unfolding_all decide

/-- C7 (amended): in the generic CSV path, a missing quantity column
defaults `quantity` to 1.0 with a per-row "quantity" missing-field
warning, and a missing or invalid average price defaults to 0 with an
"average_price" (resp. "average_price (invalid value)") warning; but
an unresolvable current price is silently defaulted to 0 and an
invalid quantity value is silently defaulted to 1.0 — the only field
names ever warned about are the quantity and average-price ones.  A
file with no quantity column yields `quantity = 1.0` on every emitted
holding with a "quantity" warning attached to every emitted holding. -/
theorem c7_amended_defaults :
    (∀ idx row h w, parseGenericRow idx row = some (h, w) →
      (row.quantity = Cell.absent → h.quantity = 1 ∧
        ∃ wv, w = some wv ∧ "quantity" ∈ wv.missingFields) ∧
      (row.quantity = Cell.invalid → h.quantity = 1 ∧
        ∀ wv, w = some wv → "quantity" ∉ wv.missingFields) ∧
      (row.avgPrice = Cell.absent → h.averagePrice = 0 ∧
        ∃ wv, w = some wv ∧ "average_price" ∈ wv.missingFields) ∧
      (row.avgPrice = Cell.invalid → h.averagePrice = 0 ∧
        ∃ wv, w = some wv ∧ "average_price (invalid value)" ∈ wv.missingFields) ∧
      ((row.currentPrice = Cell.absent ∨ row.currentPrice = Cell.invalid) →
        h.currentPrice = 0) ∧
      (∀ wv, w = some wv → ∀ fld ∈ wv.missingFields,
        fld = "quantity" ∨ fld = "average_price" ∨
          fld = "average_price (invalid value)")) ∧
    (∀ rows, (∀ r ∈ rows, r.quantity = Cell.absent) →
      (∀ h ∈ (parseGenericRows rows).1, h.quantity = 1) ∧
      (∀ wv ∈ (parseGenericRows rows).2, "quantity" ∈ wv.missingFields) ∧
      (parseGenericRows rows).2.length = (parseGenericRows rows).1.length) :=
  ⟨fun idx row h w hp => genRow_fields idx row h w hp,
   fun rows hall => genericRowsFrom_quantity_absent rows hall 0⟩

/-- Witness for C7 (amended): a one-row file with no quantity column
emits one holding with quantity 1 and one warning naming "quantity". -/
theorem c7_amended_defaults_witness :
    (∀ h ∈ (parseGenericRows [⟨some "RELIANCE", Cell.absent, Cell.num 10,
        Cell.num 20⟩]).1, h.quantity = 1) ∧
    (∀ wv ∈ (parseGenericRows [⟨some "RELIANCE", Cell.absent, Cell.num 10,
        Cell.num 20⟩]).2, "quantity" ∈ wv.missingFields) :=
  ⟨(c7_amended_defaults.2 [⟨some "RELIANCE", Cell.absent, Cell.num 10, Cell.num 20⟩]
      (by intro r hr; simp at hr; rw [hr])).1,
   (c7_amended_defaults.2 [⟨some "RELIANCE", Cell.absent, Cell.num 10, Cell.num 20⟩]
      (by intro r hr; simp at hr; rw [hr])).2.1⟩

/-- C8 (counterexample): the Excel stock-sheet parser emits NIFTYBEES
with asset type stock, while the generic CSV classification logic
assigns etf to the same cleaned symbol — the two paths disagree. -/
theorem c8_excel_classification_counterexample :
    parseExcelStockRow 0 "S1"
        ⟨some "NIFTYBEES", Cell.num 5, Cell.num 10, Cell.num 20⟩ =
      some (excelBeesHold, none) ∧
    excelBeesHold.assetType = "stock" ∧
    excelStockAssetTypeSpec "NIFTYBEES" = "etf" ∧
    excelBeesHold.assetType ≠ excelStockAssetTypeSpec "NIFTYBEES" := by
  with_unfolding_all decide

/-- C8 (amended): the Excel stock-sheet parser reuses the generic-CSV
column mapping but not its classification — every holding it emits has
asset type stock, so a BEES-suffixed symbol from a stock sheet is
classified stock, not etf. -/
theorem c8_amended_excel_stock_asset_type :
    ∀ idx sheet row h w, parseExcelStockRow idx sheet row = some (h, w) →
      h.assetType = "stock" := by
  intro idx sheet row h w hp
  obtain ⟨sym, qc, ac, cc⟩ := row
  cases sym with
  | none => exact absurd hp (by simp [parseExcelStockRow])
  | some raw =>
    simp only [parseExcelStockRow, Option.some.injEq, Prod.mk.injEq] at hp
    obtain ⟨rfl, -⟩ := hp
    rfl

/-- Witness for C8 (amended): the NIFTYBEES stock-sheet row is emitted
with asset type stock. -/
theorem c8_amended_excel_stock_asset_type_witness :
    excelBeesHold.assetType = "stock" :=
  c8_amended_excel_stock_asset_type 0 "S1"
    ⟨some "NIFTYBEES", Cell.num 5, Cell.num 10, Cell.num 20⟩ excelBeesHold none
    (by with_unfolding_all decide)

/-- C9: in the Excel mutual-fund sheet, a numeric "invested value or
average price" below 1000 is taken as the per-unit average price with
the invested value derived as `avg_price*units`; a value of 1000 or
more is taken as the total invested value with `avg_price =
invested_value/units` when units is positive, falling back to the NAV
when units is 0 (units are non-negative per the data model). -/
theorem c9_invested_value_interpretation (v u n : ℚ) (hu : 0 ≤ u) :
    (v < 1000 → (mfInvestedInterp v u n).2 = v ∧
      (mfInvestedInterp v u n).1 = v * u) ∧
    (1000 ≤ v → (mfInvestedInterp v u n).1 = v ∧
      (0 < u → (mfInvestedInterp v u n).2 = v / u) ∧
      (u = 0 → (mfInvestedInterp v u n).2 = n)) := by
  constructor
  · intro hv
    unfold mfInvestedInterp
    rw [if_pos hv]
    refine ⟨rfl, ?_⟩
    by_cases hu0 : 0 < u
    · rw [if_pos hu0]
    · rw [if_neg hu0]
      have h0 : u = 0 := le_antisymm (not_lt.1 hu0) hu
      rw [h0, mul_zero]
  · intro hv
    unfold mfInvestedInterp
    rw [if_neg (not_lt.2 hv)]
    refine ⟨rfl, fun h0 => by rw [if_pos h0], fun h0 => ?_⟩
    rw [if_neg (by rw [h0]; exact lt_irrefl 0)]

/-- Witness for C9: value 500 with 4 units is a per-unit price (invested
2000); value 3000 with 0 units falls back to the NAV 55. -/
theorem c9_invested_value_interpretation_witness :
    (mfInvestedInterp 500 4 0).2 = 500 ∧ (mfInvestedInterp 500 4 0).1 = 500 * 4 ∧
    (mfInvestedInterp 3000 0 55).2 = 55 := by
  obtain ⟨ha, hb⟩ :=
    (c9_invested_value_interpretation 500 4 0 (by norm_num)).1 (by norm_num)
  exact ⟨ha, hb,
    ((c9_invested_value_interpretation 3000 0 55 (by norm_num)).2 (by norm_num)).2.2 rfl⟩

/-- C10: every holding emitted by the PDF mutual-fund windowed extraction
has `average_price` equal to the extracted NAV (and to `current_price`
even when no NAV was extracted), with `pnl = 0` and
`pnl_percentage = 0`. -/
theorem c10_pdf_mf_nav_invariant (scheme : String) (w : PdfWindow)
    (h : ParsedHolding) (hp : pdfMFSchemeHolding scheme w = some h) :
    h.averagePrice = h.currentPrice ∧
    (∀ n, w.nav = Cell.num n → h.averagePrice = n) ∧
    h.pnl = 0 ∧ h.pnlPercentage = 0 := by
  obtain ⟨uc, nc⟩ := w
  cases uc with
  | absent => simp [pdfMFSchemeHolding] at hp
  | invalid => simp [pdfMFSchemeHolding] at hp
  | num u =>
    cases nc with
    | absent =>
      simp only [pdfMFSchemeHolding] at hp
      split at hp
      · simp only [Option.some.injEq] at hp
        obtain rfl := hp.symm
        exact ⟨rfl, fun n hn => absurd hn (by simp), rfl, rfl⟩
      · exact absurd hp (by simp)
    | invalid =>
      simp only [pdfMFSchemeHolding] at hp
      split at hp
      · simp only [Option.some.injEq] at hp
        obtain rfl := hp.symm
        exact ⟨rfl, fun n hn => absurd hn (by simp), rfl, rfl⟩
      · exact absurd hp (by simp)
    | num n =>
      simp only [pdfMFSchemeHolding] at hp
      split at hp
      · simp only [Option.some.injEq] at hp
        obtain rfl := hp.symm
        refine ⟨rfl, ?_, rfl, rfl⟩
        intro m hm
        injection hm with hm2
      · exact absurd hp (by simp)

/-- Witness for C10: a candidate with units 10 and NAV 50 is emitted with
equal average and current price and zero P&L. -/
theorem c10_pdf_mf_nav_invariant_witness :
    pdfHoldEx.averagePrice = pdfHoldEx.currentPrice ∧
    pdfHoldEx.pnl = 0 ∧ pdfHoldEx.pnlPercentage = 0 :=
  ⟨(c10_pdf_mf_nav_invariant "HDFC Flexi Cap Fund" ⟨Cell.num 10, Cell.num 50⟩
      pdfHoldEx (by with_unfolding_all decide)).1,
   (c10_pdf_mf_nav_invariant "HDFC Flexi Cap Fund" ⟨Cell.num 10, Cell.num 50⟩
      pdfHoldEx (by with_unfolding_all decide)).2.2.1,
   (c10_pdf_mf_nav_invariant "HDFC Flexi Cap Fund" ⟨Cell.num 10, Cell.num 50⟩
      pdfHoldEx (by with_unfolding_all decide)).2.2.2⟩

end SelFi
